import Mathlib

/-!
Shallow embedding of the storage-accessor subsystem of `zino`
(`src/zino-core/src/accessor/mod.rs`): the scheme-keyed backend builder
dispatch `GlobalAccessor::try_new_operator`, the fixed tracing/metrics/retry
layer stack, and the lazily built global registry `GLOBAL_ACCESSOR` with its
first-match lookup `GlobalAccessor::get`.

The embedding reflects the default feature configuration: the seven
feature-gated builder arms (`dashmap`, `ftp`, `ipfs`, `memcached`, `moka`,
`redis`, `sled`) are compiled out, so their scheme strings fall through to
the wildcard arm.
-/

namespace Zino

/-- A TOML value, as far as the accessor subsystem consumes it
(`toml::Value`; external input per spec §2, "ConfigTable ... External input,
not built here"). -/
inductive Value where
  | str : String → Value
  | int : Int → Value
  | boolean : Bool → Value
  | array : List Value → Value
  | table : List (String × Value) → Value

/-- A TOML table: a mapping from field names to values (`toml::Table`). -/
def Table : Type := List (String × Value)

/-- Looks up a key in a table (first match; TOML keys are unique). -/
def Table.get (t : Table) (key : String) : Option Value :=
  (List.find? (fun p => p.1 = key) t).map (·.2)

/-- Extracts a string value. -/
def Value.as_str : Value → Option String
  | .str s => some s
  | _ => none

/-- Extracts a table value. -/
def Value.as_table : Value → Option Table
  | .table t => some t
  | _ => none

/-- Extracts an array value. -/
def Value.as_array : Value → Option (List Value)
  | .array a => some a
  | _ => none

/-- Modelled from the spec: the repository's `TomlTableExt::get_str` helper
(in the `extend` module, absent from `src/`): reads the field at `key` when
it is a string (spec §3, ConfigTable fields are loosely typed and optional). -/
def Table.get_str (t : Table) (key : String) : Option String :=
  (t.get key).bind Value.as_str

/-- Modelled from the spec: the repository's `TomlTableExt::get_array` helper
(in the `extend` module, absent from `src/`): reads the field at `key` when
it is an array. -/
def Table.get_array (t : Table) (key : String) : Option (List Value) :=
  (t.get key).bind Value.as_array

/-- Modelled from the spec: the external Secret Resolver
`decrypt_password(config) -> Option<Secret>` (spec §1/§6, out of scope,
specified only at its interface): resolves the password-style credential
carried by the configuration table's password field. -/
def State.decrypt_password (config : Table) : Option String :=
  config.get_str "password"

/-- Error kinds of the external `opendal::Error` used by this subsystem
(only `Unsupported` is produced by the dispatch itself). -/
inductive ErrorKind where
  | Unsupported : ErrorKind
deriving DecidableEq

/-- The error type (`opendal::Error`): a kind plus a message. -/
structure Error where
  kind : ErrorKind
  message : String
deriving DecidableEq

/-- Modelled from the spec: the `Display` rendering of the external
`opendal::Error`, used when the registry initializer formats a build
failure; it renders the kind and the message. -/
def ErrorKind.display : ErrorKind → String
  | .Unsupported => "Unsupported"

/-- Modelled from the spec: `Display` for `Error` (kind, then message). -/
def Error.display (e : Error) : String :=
  e.kind.display ++ ": " ++ e.message

/-- Builder state for `opendal::services::Azblob`: the optional fields the
dispatch can set. -/
structure Azblob where
  root : Option String := none
  container : Option String := none
  endpoint : Option String := none
  account_name : Option String := none
  account_key : Option String := none
  sas_token : Option String := none
deriving DecidableEq

/-- Builder state for `opendal::services::Azdfs`. -/
structure Azdfs where
  root : Option String := none
  filesystem : Option String := none
  endpoint : Option String := none
  account_name : Option String := none
  account_key : Option String := none
deriving DecidableEq

/-- Builder state for `opendal::services::Fs`. -/
structure Fs where
  root : Option String := none
  atomic_write_dir : Option String := none
deriving DecidableEq

/-- Builder state for `opendal::services::Gcs`. -/
structure Gcs where
  root : Option String := none
  bucket : Option String := none
  endpoint : Option String := none
  service_account : Option String := none
  credential : Option String := none
  credential_path : Option String := none
deriving DecidableEq

/-- Builder state for `opendal::services::Ghac`. -/
structure Ghac where
  root : Option String := none
  version : Option String := none
deriving DecidableEq

/-- Builder state for `opendal::services::Ipmfs`. -/
structure Ipmfs where
  root : Option String := none
  endpoint : Option String := none
deriving DecidableEq

/-- Builder state for `opendal::services::Obs`. -/
structure Obs where
  root : Option String := none
  bucket : Option String := none
  endpoint : Option String := none
  access_key_id : Option String := none
  secret_access_key : Option String := none
deriving DecidableEq

/-- Builder state for `opendal::services::Oss`. -/
structure Oss where
  root : Option String := none
  bucket : Option String := none
  endpoint : Option String := none
  presign_endpoint : Option String := none
  access_key_id : Option String := none
  access_key_secret : Option String := none
deriving DecidableEq

/-- Builder state for `opendal::services::S3` (shared by the `"s3"` and
`"minio"` schemes). -/
structure S3 where
  root : Option String := none
  bucket : Option String := none
  endpoint : Option String := none
  region : Option String := none
  access_key_id : Option String := none
  secret_access_key : Option String := none
  role_arn : Option String := none
  external_id : Option String := none
deriving DecidableEq

/-- Builder state for `opendal::services::Webdav`. -/
structure Webdav where
  root : Option String := none
  endpoint : Option String := none
  username : Option String := none
  password : Option String := none
deriving DecidableEq

/-- Builder state for `opendal::services::Webhdfs`. -/
structure Webhdfs where
  root : Option String := none
  endpoint : Option String := none
  delegation : Option String := none
deriving DecidableEq

/-- The raw backend operator produced by a builder (`RawOperator` of spec §3):
the assembled backend handle, tagged by backend family. -/
inductive RawOperator where
  | azblob : Azblob → RawOperator
  | azdfs : Azdfs → RawOperator
  | fs : Fs → RawOperator
  | gcs : Gcs → RawOperator
  | ghac : Ghac → RawOperator
  | ipmfs : Ipmfs → RawOperator
  | memory : RawOperator
  | obs : Obs → RawOperator
  | oss : Oss → RawOperator
  | s3 : S3 → RawOperator
  | webdav : Webdav → RawOperator
  | webhdfs : Webhdfs → RawOperator
deriving DecidableEq

/-- The three cross-cutting decorators (`opendal::layers`). -/
inductive Layer where
  | tracing : Layer
  | metrics : Layer
  | retry : Layer
deriving DecidableEq

/-- An `opendal::Operator`: the raw backend handle plus the decorator
layers applied to it, in application order (the last element of `layers`
is the outermost decorator). -/
structure Operator where
  raw : RawOperator
  layers : List Layer
deriving DecidableEq

/-- Modelled from the spec: `Operator::new(builder)?.finish()` — backend
construction is delegated to the external `opendal` collaborators (spec §1:
concrete backends are out of scope, "assumed implemented by existing client
libraries"); the embedding records the assembled builder as a raw operator
with no layers. -/
def Operator.new (raw : RawOperator) : Except Error Operator :=
  .ok { raw := raw, layers := [] }

/-- Wraps an operator with one more decorator, mirroring `op.layer(l)`
(the layer applied last is outermost). -/
def Operator.layer (op : Operator) (l : Layer) : Operator :=
  { op with layers := op.layers ++ [l] }

/-- Applies a setter to the builder when the string field `key` is present
in the configuration, mirroring the source's
`if let Some(x) = config.get_str(key) { builder.x(x); }` lines. -/
def setOpt {b : Type} (config : Table) (key : String) (set : b → String → b)
    (builder : b) : b :=
  match config.get_str key with
  | some v => set builder v
  | none => builder

/-- Applies a setter when an already-resolved optional value is present,
mirroring `if let Some(password) = State::decrypt_password(config) { ... }`. -/
def setOptVal {b : Type} (value : Option String) (set : b → String → b)
    (builder : b) : b :=
  match value with
  | some v => set builder v
  | none => builder

/-- The `"azblob"` arm's builder assembly. -/
def buildAzblob (config : Table) : Azblob :=
  ({} : Azblob)
    |> setOpt config "root" (fun b v => { b with root := some v })
    |> setOpt config "container" (fun b v => { b with container := some v })
    |> setOpt config "endpoint" (fun b v => { b with endpoint := some v })
    |> setOpt config "account-name" (fun b v => { b with account_name := some v })
    |> setOpt config "account-key" (fun b v => { b with account_key := some v })
    |> setOpt config "sas-token" (fun b v => { b with sas_token := some v })

/-- The `"azdfs"` arm's builder assembly. -/
def buildAzdfs (config : Table) : Azdfs :=
  ({} : Azdfs)
    |> setOpt config "root" (fun b v => { b with root := some v })
    |> setOpt config "filesystem" (fun b v => { b with filesystem := some v })
    |> setOpt config "endpoint" (fun b v => { b with endpoint := some v })
    |> setOpt config "account-name" (fun b v => { b with account_name := some v })
    |> setOpt config "account-key" (fun b v => { b with account_key := some v })

/-- The `"fs"` arm's builder assembly. -/
def buildFs (config : Table) : Fs :=
  ({} : Fs)
    |> setOpt config "root" (fun b v => { b with root := some v })
    |> setOpt config "atomic-write-dir" (fun b v => { b with atomic_write_dir := some v })

/-- The `"gcs"` arm's builder assembly. -/
def buildGcs (config : Table) : Gcs :=
  ({} : Gcs)
    |> setOpt config "root" (fun b v => { b with root := some v })
    |> setOpt config "bucket" (fun b v => { b with bucket := some v })
    |> setOpt config "endpoint" (fun b v => { b with endpoint := some v })
    |> setOpt config "service-account" (fun b v => { b with service_account := some v })
    |> setOpt config "credential" (fun b v => { b with credential := some v })
    |> setOpt config "credential-path" (fun b v => { b with credential_path := some v })

/-- The `"ghac"` arm's builder assembly. -/
def buildGhac (config : Table) : Ghac :=
  ({} : Ghac)
    |> setOpt config "root" (fun b v => { b with root := some v })
    |> setOpt config "version" (fun b v => { b with version := some v })

/-- The `"ipmfs"` arm's builder assembly. -/
def buildIpmfs (config : Table) : Ipmfs :=
  ({} : Ipmfs)
    |> setOpt config "root" (fun b v => { b with root := some v })
    |> setOpt config "endpoint" (fun b v => { b with endpoint := some v })

/-- The `"obs"` arm's builder assembly. Note the source reads the
underscore-separated field `secret_access_key` here, unlike the
hyphen-separated credential fields of the other arms. -/
def buildObs (config : Table) : Obs :=
  ({} : Obs)
    |> setOpt config "root" (fun b v => { b with root := some v })
    |> setOpt config "bucket" (fun b v => { b with bucket := some v })
    |> setOpt config "endpoint" (fun b v => { b with endpoint := some v })
    |> setOpt config "access-key-id" (fun b v => { b with access_key_id := some v })
    |> setOpt config "secret_access_key" (fun b v => { b with secret_access_key := some v })

/-- The `"oss"` arm's builder assembly. -/
def buildOss (config : Table) : Oss :=
  ({} : Oss)
    |> setOpt config "root" (fun b v => { b with root := some v })
    |> setOpt config "bucket" (fun b v => { b with bucket := some v })
    |> setOpt config "endpoint" (fun b v => { b with endpoint := some v })
    |> setOpt config "presign-endpoint" (fun b v => { b with presign_endpoint := some v })
    |> setOpt config "access-key-id" (fun b v => { b with access_key_id := some v })
    |> setOpt config "access-key-secret" (fun b v => { b with access_key_secret := some v })

/-- The `"s3" | "minio"` arm's builder assembly. -/
def buildS3 (config : Table) : S3 :=
  ({} : S3)
    |> setOpt config "root" (fun b v => { b with root := some v })
    |> setOpt config "bucket" (fun b v => { b with bucket := some v })
    |> setOpt config "endpoint" (fun b v => { b with endpoint := some v })
    |> setOpt config "region" (fun b v => { b with region := some v })
    |> setOpt config "access-key-id" (fun b v => { b with access_key_id := some v })
    |> setOpt config "secret-access-key" (fun b v => { b with secret_access_key := some v })
    |> setOpt config "role-arn" (fun b v => { b with role_arn := some v })
    |> setOpt config "external-id" (fun b v => { b with external_id := some v })

/-- The `"webdav"` arm's builder assembly (password via the Secret
Resolver). -/
def buildWebdav (config : Table) : Webdav :=
  ({} : Webdav)
    |> setOpt config "root" (fun b v => { b with root := some v })
    |> setOpt config "endpoint" (fun b v => { b with endpoint := some v })
    |> setOpt config "username" (fun b v => { b with username := some v })
    |> setOptVal (State.decrypt_password config) (fun b v => { b with password := some v })

/-- The `"webhdfs"` arm's builder assembly. -/
def buildWebhdfs (config : Table) : Webhdfs :=
  ({} : Webhdfs)
    |> setOpt config "root" (fun b v => { b with root := some v })
    |> setOpt config "endpoint" (fun b v => { b with endpoint := some v })
    |> setOpt config "delegation" (fun b v => { b with delegation := some v })

/-- The `match scheme` dispatch of `try_new_operator` (the `let operator =`
binding), before the layer stack is applied. Arms appear in source order;
the seven feature-gated arms are compiled out under the default features,
so their schemes reach the wildcard arm. -/
def buildBase (scheme : String) (config : Table) : Except Error Operator :=
  if scheme = "azblob" then Operator.new (.azblob (buildAzblob config))
  else if scheme = "azdfs" then Operator.new (.azdfs (buildAzdfs config))
  else if scheme = "fs" then Operator.new (.fs (buildFs config))
  else if scheme = "gcs" then Operator.new (.gcs (buildGcs config))
  else if scheme = "ghac" then Operator.new (.ghac (buildGhac config))
  else if scheme = "ipmfs" then Operator.new (.ipmfs (buildIpmfs config))
  else if scheme = "memory" then Operator.new .memory
  else if scheme = "obs" then Operator.new (.obs (buildObs config))
  else if scheme = "oss" then Operator.new (.oss (buildOss config))
  else if scheme = "s3" ∨ scheme = "minio" then Operator.new (.s3 (buildS3 config))
  else if scheme = "webdav" then Operator.new (.webdav (buildWebdav config))
  else if scheme = "webhdfs" then Operator.new (.webhdfs (buildWebhdfs config))
  else .error { kind := .Unsupported, message := "scheme is unsupported" }

/-- The fixed layer stack applied by `try_new_operator`'s final `map`:
tracing, then metrics, then retry (outermost). -/
def decorate (op : Operator) : Operator :=
  ((op.layer .tracing).layer .metrics).layer .retry

/-- Embeds `GlobalAccessor::try_new_operator(scheme, config)`
(src/zino-core/src/accessor/mod.rs, lines 62-367). -/
def GlobalAccessor.try_new_operator (scheme : String) (config : Table) :
    Except Error Operator :=
  (buildBase scheme config).map decorate

/-- The scheme identifiers with compiled-in builder arms under the default
feature configuration. -/
def supportedSchemes : List String :=
  ["azblob", "azdfs", "fs", "gcs", "ghac", "ipmfs", "memory", "obs", "oss",
   "s3", "minio", "webdav", "webhdfs"]

/-- The scheme the registry initializer uses for a configured accessor
record: `accessor.get_str("scheme").unwrap_or("unkown")` (the `"unkown"`
literal is the source's own spelling). -/
def entryScheme (accessor : Table) : String :=
  (accessor.get_str "scheme").getD "unkown"

/-- The registry key for a configured accessor record:
`accessor.get_str("name").unwrap_or(scheme)`. -/
def entryName (accessor : Table) : String :=
  (accessor.get_str "name").getD (entryScheme accessor)

/-- The panic message of the registry initializer for a failed build:
`panic!("fail to build `{scheme}` operator: {err}")`. -/
def panicMessage (scheme : String) (err : Error) : String :=
  "fail to build `" ++ scheme ++ "` operator: " ++ err.display

/-- The implicit in-memory operator pushed first into the registry
(`Operator::new(Memory::default()).expect(..).layer(TracingLayer)
.layer(MetricsLayer).layer(RetryLayer::new()).finish()`). -/
def memoryOperator : Operator :=
  decorate { raw := .memory, layers := [] }

/-- The loop body of the registry initializer over the configured accessor
array: skips non-table elements (`filter_map(|v| v.as_table())`), builds
each table record's operator, and aborts with the panic message on the
first failure. The `Except` error is the panic, modelling the source's
`unwrap_or_else(|err| panic!(..))`: a `.error` result is a process abort,
not a value. -/
def buildEntries : List Value → Except String (List (String × Operator))
  | [] => .ok []
  | v :: rest =>
    match v.as_table with
    | none => buildEntries rest
    | some accessor =>
      let scheme := entryScheme accessor
      let name := entryName accessor
      match GlobalAccessor.try_new_operator scheme accessor with
      | .error err => .error (panicMessage scheme err)
      | .ok operator => (buildEntries rest).map (fun es => (name, operator) :: es)

/-- The lazily initialized global registry `GLOBAL_ACCESSOR`
(src/zino-core/src/accessor/mod.rs, lines 379-399), as a function of the
shared application configuration (`State::shared().config()`): the memory
entry first, then one entry per configured accessor table record. A
`.error` result models the initializer panicking (process abort). -/
def GLOBAL_ACCESSOR (appConfig : Table) : Except String (List (String × Operator)) :=
  match appConfig.get_array "accessor" with
  | none => .ok [("memory", memoryOperator)]
  | some accessors => (buildEntries accessors).map (fun es => ("memory", memoryOperator) :: es)

/-- Embeds `GlobalAccessor::get(name)` (src/zino-core/src/accessor/mod.rs,
lines 371-375): first-match scan of the registry in construction order,
parameterized here by the built registry sequence. -/
def GlobalAccessor.get (registry : List (String × Operator)) (name : String) :
    Option Operator :=
  registry.findSome? (fun e => if e.1 = name then some e.2 else none)

/-- The table records of the configured accessor list, in order (what the
initializer iterates after `filter_map(|v| v.as_table())`); empty when the
`accessor` key is absent. -/
def accessorTables (appConfig : Table) : List Table :=
  ((appConfig.get_array "accessor").getD []).filterMap Value.as_table

/-- The configuration fields each compiled-in scheme builder consults
(including the password field consulted through the Secret Resolver for
`"webdav"`), read off the dispatch arms of `try_new_operator`. -/
def fieldsRead : String → List String
  | "azblob" => ["root", "container", "endpoint", "account-name", "account-key", "sas-token"]
  | "azdfs" => ["root", "filesystem", "endpoint", "account-name", "account-key"]
  | "fs" => ["root", "atomic-write-dir"]
  | "gcs" => ["root", "bucket", "endpoint", "service-account", "credential", "credential-path"]
  | "ghac" => ["root", "version"]
  | "ipmfs" => ["root", "endpoint"]
  | "memory" => []
  | "obs" => ["root", "bucket", "endpoint", "access-key-id", "secret_access_key"]
  | "oss" => ["root", "bucket", "endpoint", "presign-endpoint", "access-key-id", "access-key-secret"]
  | "s3" => ["root", "bucket", "endpoint", "region", "access-key-id", "secret-access-key", "role-arn", "external-id"]
  | "minio" => ["root", "bucket", "endpoint", "region", "access-key-id", "secret-access-key", "role-arn", "external-id"]
  | "webdav" => ["root", "endpoint", "username", "password"]
  | "webhdfs" => ["root", "endpoint", "delegation"]
  | _ => []

/-- Every operator produced by a dispatch arm carries no layers yet: the
layer stack is applied only afterwards, by the final `map`. -/
theorem buildBase_ok_layers (scheme : String) (config : Table) (op : Operator)
    (h : buildBase scheme config = .ok op) : op.layers = [] := by
  by_cases hs : scheme ∈ supportedSchemes
  · simp only [supportedSchemes, List.mem_cons, List.not_mem_nil, or_false] at hs
    rcases hs with rfl | rfl | rfl | rfl | rfl | rfl | rfl | rfl | rfl | rfl | rfl | rfl | rfl <;>
      (simp [buildBase, Operator.new] at h; subst h; rfl)
  · simp only [supportedSchemes, List.mem_cons, List.not_mem_nil, or_false,
      not_or] at hs
    obtain ⟨h1, h2, h3, h4, h5, h6, h7, h8, h9, h10, h11, h12, h13⟩ := hs
    simp [buildBase, h1, h2, h3, h4, h5, h6, h7, h8, h9, h10, h11, h12, h13] at h

/-- A successfully built registry starts with the implicit memory entry and
continues with the entries built from the configured accessor array. -/
theorem global_ok_shape (appConfig : Table) (reg : List (String × Operator))
    (h : GLOBAL_ACCESSOR appConfig = .ok reg) :
    ∃ es, reg = ("memory", memoryOperator) :: es ∧
      buildEntries ((appConfig.get_array "accessor").getD []) = .ok es := by
  cases harr : appConfig.get_array "accessor" with
  | none =>
    simp only [GLOBAL_ACCESSOR, harr] at h
    cases h
    exact ⟨[], rfl, rfl⟩
  | some accessors =>
    simp only [GLOBAL_ACCESSOR, harr] at h
    cases hb : buildEntries accessors with
    | error msg => rw [hb] at h; simp [Except.map] at h
    | ok es =>
      rw [hb] at h
      simp only [Except.map, Except.ok.injEq] at h
      exact ⟨es, h.symm, hb⟩

/-- C1: for every scheme string matching no compiled-in builder arm —
including the schemes of the feature-gated backends compiled out under the
default features — and every configuration table, `try_new_operator`
returns an `Unsupported` error with message "scheme is unsupported" and
constructs no backend. -/
theorem C1_unsupported_scheme (scheme : String) (config : Table)
    (h : scheme ∉ supportedSchemes) :
    GlobalAccessor.try_new_operator scheme config =
      .error { kind := .Unsupported, message := "scheme is unsupported" } ∧
    ∀ s ∈ (["dashmap", "ftp", "ipfs", "memcached", "moka", "redis", "sled"] :
      List String), s ∉ supportedSchemes := by
  refine ⟨?_, by decide⟩
  simp only [supportedSchemes, List.mem_cons, List.not_mem_nil, or_false,
    not_or] at h
  obtain ⟨h1, h2, h3, h4, h5, h6, h7, h8, h9, h10, h11, h12, h13⟩ := h
  simp [GlobalAccessor.try_new_operator, buildBase, Except.map,
    h1, h2, h3, h4, h5, h6, h7, h8, h9, h10, h11, h12, h13]

/-- Witness for C1 at the compiled-out scheme `"dashmap"` with an empty
configuration table. -/
theorem C1_unsupported_scheme_witness :
    ("dashmap" : String) ∉ supportedSchemes ∧
    GlobalAccessor.try_new_operator "dashmap" [] =
      .error { kind := .Unsupported, message := "scheme is unsupported" } :=
  ⟨by decide, (C1_unsupported_scheme "dashmap" [] (by decide)).1⟩

/-- C4: every operator produced by a successful `try_new_operator` call,
and the implicit memory operator of the registry, is the raw backend
operator decorated with exactly the tracing, metrics and retry layers in
that application order (retry applied last, outermost). -/
theorem C4_layer_stack (scheme : String) (config : Table) (op : Operator)
    (h : GlobalAccessor.try_new_operator scheme config = .ok op) :
    op.layers = [.tracing, .metrics, .retry] ∧
    memoryOperator.layers = [.tracing, .metrics, .retry] := by
  refine ⟨?_, rfl⟩
  unfold GlobalAccessor.try_new_operator at h
  cases hb : buildBase scheme config with
  | error e => rw [hb] at h; cases h
  | ok base =>
    rw [hb] at h
    cases h
    have hl := buildBase_ok_layers scheme config base hb
    simp [decorate, Operator.layer, hl]

/-- Witness for C4 at the `"fs"` scheme with an empty configuration. -/
theorem C4_layer_stack_witness :
    GlobalAccessor.try_new_operator "fs" [] =
      .ok (decorate { raw := .fs {}, layers := [] }) ∧
    (decorate { raw := .fs {}, layers := [] }).layers =
      [.tracing, .metrics, .retry] ∧
    memoryOperator.layers = [.tracing, .metrics, .retry] :=
  ⟨rfl, C4_layer_stack "fs" [] (decorate { raw := .fs {}, layers := [] }) rfl⟩

/-- C7: the `"s3"` and `"minio"` schemes dispatch to the same builder arm
and produce identical results; the shared arm assembles the S3-family
builder. -/
theorem C7_s3_minio_alias (config : Table) :
    GlobalAccessor.try_new_operator "s3" config =
      GlobalAccessor.try_new_operator "minio" config ∧
    GlobalAccessor.try_new_operator "s3" config =
      .ok (decorate { raw := .s3 (buildS3 config), layers := [] }) :=
  ⟨rfl, rfl⟩

/-- Entries built from the accessor array correspond pointwise, in order,
to the array's table records: each carries that record's registry name and
the operator its build produced. -/
theorem buildEntries_ok_forall₂ (vs : List Value) (es : List (String × Operator))
    (h : buildEntries vs = .ok es) :
    List.Forall₂
      (fun t e => e.1 = entryName t ∧
        GlobalAccessor.try_new_operator (entryScheme t) t = .ok e.2)
      (vs.filterMap Value.as_table) es := by
  induction vs generalizing es with
  | nil =>
    cases h
    simp [List.filterMap_nil]
  | cons v rest ih =>
    cases hv : v.as_table with
    | none =>
      simp only [buildEntries, hv] at h
      simpa [List.filterMap_cons, hv] using ih es h
    | some accessor =>
      simp only [buildEntries, hv] at h
      cases hop : GlobalAccessor.try_new_operator (entryScheme accessor) accessor with
      | error err => rw [hop] at h; cases h
      | ok op =>
        rw [hop] at h
        cases hrest : buildEntries rest with
        | error msg => rw [hrest] at h; simp [Except.map] at h
        | ok es2 =>
          rw [hrest] at h
          simp only [Except.map, Except.ok.injEq] at h
          subst h
          simp only [List.filterMap_cons, hv]
          exact List.Forall₂.cons ⟨rfl, hop⟩ (ih es2 hrest)


/-- C2: a successfully built registry is the implicit memory entry first,
followed by exactly one entry per configured accessor table record in
configuration-list order; with an empty or absent configuration list it is
exactly the single memory entry. -/
theorem C2_registry_shape (appConfig : Table) (reg : List (String × Operator))
    (h : GLOBAL_ACCESSOR appConfig = .ok reg) :
    reg.head? = some ("memory", memoryOperator) ∧
    reg.length = (accessorTables appConfig).length + 1 ∧
    (∀ (i : Nat) (h₁ : i < (accessorTables appConfig).length)
        (h₂ : i + 1 < reg.length),
      (reg.get ⟨i + 1, h₂⟩).1 =
          entryName ((accessorTables appConfig).get ⟨i, h₁⟩) ∧
      GlobalAccessor.try_new_operator
          (entryScheme ((accessorTables appConfig).get ⟨i, h₁⟩))
          ((accessorTables appConfig).get ⟨i, h₁⟩) =
        .ok (reg.get ⟨i + 1, h₂⟩).2) ∧
    (accessorTables appConfig = [] → reg = [("memory", memoryOperator)]) := by
  obtain ⟨es, rfl, hb⟩ := global_ok_shape appConfig reg h
  have hf : List.Forall₂
      (fun t e => e.1 = entryName t ∧
        GlobalAccessor.try_new_operator (entryScheme t) t = .ok e.2)
      (accessorTables appConfig) es := buildEntries_ok_forall₂ _ es hb
  have hlen : (accessorTables appConfig).length = es.length := hf.length_eq
  refine ⟨rfl, by simp [hlen], ?_, ?_⟩
  · intro i h₁ h₂
    have := (List.forall₂_iff_get.mp hf).2 i h₁ (by omega)
    exact ⟨this.1, this.2⟩
  · intro hempty
    rw [hempty] at hlen
    have : es = [] := List.eq_nil_of_length_eq_zero hlen.symm
    rw [this]

/-- C3: lookup scans entries in construction order and returns the first
name match (`none` when no entry matches); on any successfully built
registry, the lookup of `"memory"` returns the implicit built-in memory
operator, which a configured accessor of the same name cannot shadow. -/
theorem C3_first_match :
    (∀ (registry : List (String × Operator)) (name : String),
      (∀ e ∈ registry, e.1 ≠ name) → GlobalAccessor.get registry name = none) ∧
    (∀ (registry : List (String × Operator)) (name : String) (i : Nat)
        (hi : i < registry.length),
      (registry.get ⟨i, hi⟩).1 = name →
      (∀ (j : Nat) (hj : j < i) (hj2 : j < registry.length),
        (registry.get ⟨j, hj2⟩).1 ≠ name) →
      GlobalAccessor.get registry name = some (registry.get ⟨i, hi⟩).2) ∧
    (∀ (appConfig : Table) (reg : List (String × Operator)),
      GLOBAL_ACCESSOR appConfig = .ok reg →
      GlobalAccessor.get reg "memory" = some memoryOperator) := by
  refine ⟨?_, ?_, ?_⟩
  · intro registry name h
    induction registry with
    | nil => rfl
    | cons e rest ih =>
      have he : e.1 ≠ name := h e (List.mem_cons_self e rest)
      simp only [GlobalAccessor.get, List.findSome?_cons, if_neg he]
      exact ih fun x hx => h x (List.mem_cons_of_mem e hx)
  · intro registry name i
    induction registry generalizing i with
    | nil => intro hi; simp at hi
    | cons e rest ih =>
      intro hi hmatch hearlier
      cases i with
      | zero =>
        simp only [List.get] at hmatch
        simp [GlobalAccessor.get, List.findSome?_cons, hmatch]
      | succ n =>
        have he : e.1 ≠ name := hearlier 0 (Nat.succ_pos n) (by simp)
        simp only [GlobalAccessor.get, List.findSome?_cons, if_neg he]
        exact ih n (by simpa using hi) hmatch
          (fun j hj hj2 => hearlier (j + 1) (by omega) (by simpa using hj2))
  · intro appConfig reg h
    obtain ⟨es, rfl, -⟩ := global_ok_shape appConfig reg h
    simp [GlobalAccessor.get, List.findSome?_cons]


/-- Witness for C2 at a configuration with one `"fs"` accessor. -/
theorem C2_registry_shape_witness :
    GLOBAL_ACCESSOR [("accessor", Value.array [Value.table
        [("scheme", Value.str "fs"), ("name", Value.str "local"),
         ("root", Value.str "/data")]])] =
      .ok [("memory", memoryOperator),
           ("local", decorate { raw := .fs { root := some "/data" }, layers := [] })] ∧
    ([("memory", memoryOperator),
      ("local", decorate { raw := .fs { root := some "/data" }, layers := [] })] :
        List (String × Operator)).head? = some ("memory", memoryOperator) :=
  ⟨rfl, (C2_registry_shape [("accessor", Value.array [Value.table
        [("scheme", Value.str "fs"), ("name", Value.str "local"),
         ("root", Value.str "/data")]])] _ rfl).1⟩

/-- Witness for C3: a miss returns `none`; with two entries named
`"memory"` the first (built-in) wins, also on the registry built from a
configuration whose accessor is explicitly named `"memory"`. -/
theorem C3_first_match_witness :
    GlobalAccessor.get [("alpha", decorate { raw := .fs {}, layers := [] })]
        "memory" = none ∧
    GlobalAccessor.get [("memory", memoryOperator),
        ("memory", decorate { raw := .fs {}, layers := [] })] "memory" =
      some memoryOperator ∧
    GLOBAL_ACCESSOR [("accessor", Value.array [Value.table
        [("scheme", Value.str "fs"), ("name", Value.str "memory")]])] =
      .ok [("memory", memoryOperator),
           ("memory", decorate { raw := .fs {}, layers := [] })] ∧
    GlobalAccessor.get [("memory", memoryOperator),
        ("memory", decorate { raw := .fs {}, layers := [] })] "memory" =
      some memoryOperator := by
  refine ⟨C3_first_match.1 [("alpha", decorate { raw := .fs {}, layers := [] })]
      "memory" (fun e he => by rcases List.mem_singleton.mp he with rfl; simp),
    C3_first_match.2.1 [("memory", memoryOperator),
      ("memory", decorate { raw := .fs {}, layers := [] })] "memory" 0
      (by decide) rfl (fun j hj hj2 => absurd hj (Nat.not_lt_zero j)),
    rfl,
    C3_first_match.2.2 [("accessor", Value.array [Value.table
      [("scheme", Value.str "fs"), ("name", Value.str "memory")]])] _ rfl⟩

/-- C8: for every supported scheme, the dispatch result depends only on
the fields that scheme's builder reads: configuration tables agreeing on
those fields yield identical results, so unknown fields are ignored and
never cause an error. -/
theorem C8_field_dependence (scheme : String) (hs : scheme ∈ supportedSchemes)
    (c1 c2 : Table)
    (h : ∀ k ∈ fieldsRead scheme, c1.get_str k = c2.get_str k) :
    GlobalAccessor.try_new_operator scheme c1 =
      GlobalAccessor.try_new_operator scheme c2 := by
  simp only [supportedSchemes, List.mem_cons, List.not_mem_nil, or_false] at hs
  rcases hs with rfl|rfl|rfl|rfl|rfl|rfl|rfl|rfl|rfl|rfl|rfl|rfl|rfl
  · simp [fieldsRead, List.forall_mem_cons] at h
    obtain ⟨h1, h2, h3, h4, h5, h6⟩ := h
    simp [GlobalAccessor.try_new_operator, buildBase, buildAzblob, setOpt,
      h1, h2, h3, h4, h5, h6]
  · simp [fieldsRead, List.forall_mem_cons] at h
    obtain ⟨h1, h2, h3, h4, h5⟩ := h
    simp [GlobalAccessor.try_new_operator, buildBase, buildAzdfs, setOpt,
      h1, h2, h3, h4, h5]
  · simp [fieldsRead, List.forall_mem_cons] at h
    obtain ⟨h1, h2⟩ := h
    simp [GlobalAccessor.try_new_operator, buildBase, buildFs, setOpt, h1, h2]
  · simp [fieldsRead, List.forall_mem_cons] at h
    obtain ⟨h1, h2, h3, h4, h5, h6⟩ := h
    simp [GlobalAccessor.try_new_operator, buildBase, buildGcs, setOpt,
      h1, h2, h3, h4, h5, h6]
  · simp [fieldsRead, List.forall_mem_cons] at h
    obtain ⟨h1, h2⟩ := h
    simp [GlobalAccessor.try_new_operator, buildBase, buildGhac, setOpt, h1, h2]
  · simp [fieldsRead, List.forall_mem_cons] at h
    obtain ⟨h1, h2⟩ := h
    simp [GlobalAccessor.try_new_operator, buildBase, buildIpmfs, setOpt, h1, h2]
  · simp [GlobalAccessor.try_new_operator, buildBase]
  · simp [fieldsRead, List.forall_mem_cons] at h
    obtain ⟨h1, h2, h3, h4, h5⟩ := h
    simp [GlobalAccessor.try_new_operator, buildBase, buildObs, setOpt,
      h1, h2, h3, h4, h5]
  · simp [fieldsRead, List.forall_mem_cons] at h
    obtain ⟨h1, h2, h3, h4, h5, h6⟩ := h
    simp [GlobalAccessor.try_new_operator, buildBase, buildOss, setOpt,
      h1, h2, h3, h4, h5, h6]
  · simp [fieldsRead, List.forall_mem_cons] at h
    obtain ⟨h1, h2, h3, h4, h5, h6, h7, h8⟩ := h
    simp [GlobalAccessor.try_new_operator, buildBase, buildS3, setOpt,
      h1, h2, h3, h4, h5, h6, h7, h8]
  · simp [fieldsRead, List.forall_mem_cons] at h
    obtain ⟨h1, h2, h3, h4, h5, h6, h7, h8⟩ := h
    simp [GlobalAccessor.try_new_operator, buildBase, buildS3, setOpt,
      h1, h2, h3, h4, h5, h6, h7, h8]
  · simp [fieldsRead, List.forall_mem_cons] at h
    obtain ⟨h1, h2, h3, h4⟩ := h
    simp [GlobalAccessor.try_new_operator, buildBase, buildWebdav, setOpt,
      setOptVal, State.decrypt_password, h1, h2, h3, h4]
  · simp [fieldsRead, List.forall_mem_cons] at h
    obtain ⟨h1, h2, h3⟩ := h
    simp [GlobalAccessor.try_new_operator, buildBase, buildWebhdfs, setOpt,
      h1, h2, h3]

/-- Witness for C8 at `"fs"` with two tables agreeing on the fs fields
but differing in extra fields. -/
theorem C8_field_dependence_witness :
    ("fs" : String) ∈ supportedSchemes ∧
    GlobalAccessor.try_new_operator "fs"
        [("root", Value.str "/data"), ("extra", Value.str "x")] =
      GlobalAccessor.try_new_operator "fs"
        [("root", Value.str "/data"), ("other", Value.boolean true)] :=
  ⟨by decide, C8_field_dependence "fs" (by decide) _ _ (by decide)⟩

/-- If any table record of the accessor array fails to build, the
initializer loop aborts with some panic message. -/
theorem buildEntries_error_of_mem (vs : List Value) (accessor : Table)
    (hmem : accessor ∈ vs.filterMap Value.as_table) (err : Error)
    (hfail : GlobalAccessor.try_new_operator (entryScheme accessor) accessor =
      .error err) :
    ∃ msg, buildEntries vs = .error msg := by
  induction vs with
  | nil => simp at hmem
  | cons v rest ih =>
    cases hv : v.as_table with
    | none =>
      simp only [List.filterMap_cons, hv] at hmem
      obtain ⟨msg, hmsg⟩ := ih hmem
      exact ⟨msg, by simp [buildEntries, hv, hmsg]⟩
    | some a =>
      simp only [List.filterMap_cons, hv] at hmem
      rcases List.mem_cons.mp hmem with rfl | hmem2
      · exact ⟨panicMessage (entryScheme accessor) err,
          by simp [buildEntries, hv, hfail]⟩
      · cases hop : GlobalAccessor.try_new_operator (entryScheme a) a with
        | error e2 =>
          exact ⟨panicMessage (entryScheme a) e2, by simp [buildEntries, hv, hop]⟩
        | ok op =>
          obtain ⟨msg, hmsg⟩ := ih hmem2
          exact ⟨msg, by simp [buildEntries, hv, hop, hmsg, Except.map]⟩

/-- C5: if `try_new_operator` fails for any configured accessor record,
registry construction aborts (the initializer panics): no registry value —
partial or otherwise — is produced. -/
theorem C5_fail_fast (appConfig : Table) (accessor : Table)
    (hmem : accessor ∈ accessorTables appConfig) (err : Error)
    (hfail : GlobalAccessor.try_new_operator (entryScheme accessor) accessor =
      .error err) :
    (∃ msg, GLOBAL_ACCESSOR appConfig = .error msg) ∧
    ∀ reg, GLOBAL_ACCESSOR appConfig ≠ .ok reg := by
  have hmain : ∃ msg, GLOBAL_ACCESSOR appConfig = .error msg := by
    cases harr : appConfig.get_array "accessor" with
    | none => simp [accessorTables, harr] at hmem
    | some accessors =>
      have hmem2 : accessor ∈ accessors.filterMap Value.as_table := by
        simpa [accessorTables, harr] using hmem
      obtain ⟨msg, hmsg⟩ := buildEntries_error_of_mem accessors accessor hmem2 err hfail
      exact ⟨msg, by simp [GLOBAL_ACCESSOR, harr, hmsg, Except.map]⟩
  refine ⟨hmain, ?_⟩
  obtain ⟨msg, hmsg⟩ := hmain
  intro reg hreg
  rw [hmsg] at hreg
  cases hreg

/-- Witness for C5 at a configuration with one `"bogus"`-scheme accessor. -/
theorem C5_fail_fast_witness :
    ∃ msg, GLOBAL_ACCESSOR [("accessor", Value.array
      [Value.table [("scheme", Value.str "bogus")]])] = .error msg :=
  (C5_fail_fast [("accessor", Value.array
      [Value.table [("scheme", Value.str "bogus")]])]
    [("scheme", Value.str "bogus")]
    (List.mem_singleton.mpr rfl)
    { kind := .Unsupported, message := "scheme is unsupported" } rfl).1

/-- The scheme is interpolated into the initializer's panic message, so it
always occurs in it as a substring. -/
theorem scheme_infix_panicMessage (scheme : String) (err : Error) :
    scheme.data <:+: (panicMessage scheme err).data := by
  refine ⟨"fail to build `".data, ("` operator: " ++ err.display).data, ?_⟩
  simp [panicMessage, String.data_append]

/-- An aborted initializer loop owes its message to some failing table
record: the message is that record's panic message. -/
theorem buildEntries_error_inv (vs : List Value) (msg : String)
    (h : buildEntries vs = .error msg) :
    ∃ accessor err, accessor ∈ vs.filterMap Value.as_table ∧
      GlobalAccessor.try_new_operator (entryScheme accessor) accessor = .error err ∧
      msg = panicMessage (entryScheme accessor) err := by
  induction vs generalizing msg with
  | nil => cases h
  | cons v rest ih =>
    cases hv : v.as_table with
    | none =>
      simp only [buildEntries, hv] at h
      obtain ⟨a, e, hm, hf, hmsg⟩ := ih msg h
      exact ⟨a, e, by simp [List.filterMap_cons, hv, hm], hf, hmsg⟩
    | some accessor =>
      simp only [buildEntries, hv] at h
      cases hop : GlobalAccessor.try_new_operator (entryScheme accessor) accessor with
      | error err =>
        simp only [hop] at h
        cases h
        exact ⟨accessor, err, by simp [List.filterMap_cons, hv], hop, rfl⟩
      | ok op =>
        simp only [hop] at h
        cases hrest : buildEntries rest with
        | ok es => rw [hrest] at h; simp [Except.map] at h
        | error m2 =>
          rw [hrest] at h
          simp only [Except.map, Except.error.injEq] at h
          obtain ⟨a, e, hm, hf, hmsg⟩ := ih m2 hrest
          exact ⟨a, e, by simp [List.filterMap_cons, hv, hm], hf, h ▸ hmsg⟩

/-- C6 (amended): when registry construction aborts, the fatal message is
the panic message of some failing configured accessor and identifies that
accessor's scheme, which occurs in the message as a substring. The
configured name is not part of the message (see the counterexample). -/
theorem C6_message_identifies_scheme (appConfig : Table) (msg : String)
    (h : GLOBAL_ACCESSOR appConfig = .error msg) :
    ∃ accessor err, accessor ∈ accessorTables appConfig ∧
      GlobalAccessor.try_new_operator (entryScheme accessor) accessor = .error err ∧
      msg = panicMessage (entryScheme accessor) err ∧
      (entryScheme accessor).data <:+: msg.data := by
  cases harr : appConfig.get_array "accessor" with
  | none => simp [GLOBAL_ACCESSOR, harr] at h
  | some accessors =>
    simp only [GLOBAL_ACCESSOR, harr] at h
    cases hb : buildEntries accessors with
    | ok es => rw [hb] at h; simp [Except.map] at h
    | error m =>
      rw [hb] at h
      simp only [Except.map, Except.error.injEq] at h
      subst h
      obtain ⟨a, e, hm, hf, hmsg⟩ := buildEntries_error_inv accessors _ hb
      refine ⟨a, e, by simpa [accessorTables, harr] using hm, hf, hmsg, ?_⟩
      rw [hmsg]
      exact scheme_infix_panicMessage (entryScheme a) e

set_option maxHeartbeats 1600000 in
/-- Witness for the amended C6 at a `"bogus"`-scheme accessor. -/
theorem C6_message_identifies_scheme_witness :
    ∃ accessor err,
      accessor ∈ accessorTables [("accessor", Value.array
        [Value.table [("scheme", Value.str "bogus"),
          ("name", Value.str "mydata")]])] ∧
      GlobalAccessor.try_new_operator (entryScheme accessor) accessor = .error err ∧
      "fail to build `bogus` operator: Unsupported: scheme is unsupported" =
        panicMessage (entryScheme accessor) err ∧
      (entryScheme accessor).data <:+:
        "fail to build `bogus` operator: Unsupported: scheme is unsupported".data :=
  C6_message_identifies_scheme
    [("accessor", Value.array [Value.table [("scheme", Value.str "bogus"),
      ("name", Value.str "mydata")]])]
    "fail to build `bogus` operator: Unsupported: scheme is unsupported" rfl

/-- Counterexample to C6 as stated: for the accessor configured with
scheme `"bogus"` and name `"mydata"`, the fatal message contains the
scheme but not the configured name. -/
theorem C6_counterexample :
    GLOBAL_ACCESSOR [("accessor", Value.array [Value.table
        [("scheme", Value.str "bogus"), ("name", Value.str "mydata")]])] =
      .error "fail to build `bogus` operator: Unsupported: scheme is unsupported" ∧
    "bogus".data <:+:
      "fail to build `bogus` operator: Unsupported: scheme is unsupported".data ∧
    ¬ "mydata".data <:+:
      "fail to build `bogus` operator: Unsupported: scheme is unsupported".data :=
  ⟨rfl, by decide, by decide⟩

/-- C9: a configured accessor record without a scheme field gets the
literal scheme `"unkown"` (also the default name), which matches no
builder, so construction aborts with the Unsupported panic message rather
than a missing-required-field error. -/
theorem C9_missing_scheme (appConfig : Table) (accessor : Table) (rest : List Value)
    (harr : appConfig.get_array "accessor" = some (Value.table accessor :: rest))
    (hscheme : accessor.get_str "scheme" = none) :
    entryScheme accessor = "unkown" ∧
    (accessor.get_str "name" = none → entryName accessor = "unkown") ∧
    GLOBAL_ACCESSOR appConfig =
      .error (panicMessage "unkown"
        { kind := .Unsupported, message := "scheme is unsupported" }) := by
  have hsch : entryScheme accessor = "unkown" := by simp [entryScheme, hscheme]
  have hfail : GlobalAccessor.try_new_operator "unkown" accessor =
      .error { kind := .Unsupported, message := "scheme is unsupported" } := by
    simp [GlobalAccessor.try_new_operator, buildBase, Except.map]
  refine ⟨hsch, fun hn => by simp [entryName, hn, hsch], ?_⟩
  simp [GLOBAL_ACCESSOR, harr, buildEntries, Value.as_table, hsch, hfail, Except.map]

/-- Witness for C9 at a record carrying only a root field. -/
theorem C9_missing_scheme_witness :
    entryScheme [("root", Value.str "/tmp")] = "unkown" ∧
    entryName [("root", Value.str "/tmp")] = "unkown" ∧
    GLOBAL_ACCESSOR [("accessor", Value.array
        [Value.table [("root", Value.str "/tmp")]])] =
      .error (panicMessage "unkown"
        { kind := .Unsupported, message := "scheme is unsupported" }) := by
  have h := C9_missing_scheme
    [("accessor", Value.array [Value.table [("root", Value.str "/tmp")]])]
    [("root", Value.str "/tmp")] [] rfl rfl
  exact ⟨h.1, h.2.1 rfl, h.2.2⟩

/-- The obs builder's secret access key comes from the
underscore-separated field. -/
theorem buildObs_secret (config : Table) :
    (buildObs config).secret_access_key = config.get_str "secret_access_key" := by
  simp only [buildObs, setOpt]
  repeat' split
  all_goals simp_all

/-- The oss builder's access key secret comes from the hyphen-separated
field. -/
theorem buildOss_secret (config : Table) :
    (buildOss config).access_key_secret = config.get_str "access-key-secret" := by
  simp only [buildOss, setOpt]
  repeat' split
  all_goals simp_all

set_option maxHeartbeats 1600000 in
/-- The s3 builder's secret access key comes from the hyphen-separated
field. -/
theorem buildS3_secret (config : Table) :
    (buildS3 config).secret_access_key = config.get_str "secret-access-key" := by
  simp only [buildS3, setOpt]
  repeat' split
  all_goals simp_all

/-- C10: the `"obs"` arm reads the secret access key only from the
underscore-separated field `secret_access_key`, unlike the
hyphen-separated credential fields of the `"s3"` and `"oss"` arms, so a
value under `secret-access-key` is ignored for obs. -/
theorem C10_obs_secret_key (config : Table) :
    (∃ b : Obs, GlobalAccessor.try_new_operator "obs" config =
        .ok (decorate { raw := .obs b, layers := [] }) ∧
      b.secret_access_key = config.get_str "secret_access_key") ∧
    (∃ b : S3, GlobalAccessor.try_new_operator "s3" config =
        .ok (decorate { raw := .s3 b, layers := [] }) ∧
      b.secret_access_key = config.get_str "secret-access-key") ∧
    (∃ b : Oss, GlobalAccessor.try_new_operator "oss" config =
        .ok (decorate { raw := .oss b, layers := [] }) ∧
      b.access_key_secret = config.get_str "access-key-secret") :=
  ⟨⟨buildObs config, rfl, buildObs_secret config⟩,
   ⟨buildS3 config, rfl, buildS3_secret config⟩,
   ⟨buildOss config, rfl, buildOss_secret config⟩⟩

end Zino
